import Mathlib

/-
Verification development for the fake-news spread simulator.

The agent-based model (ABM) lives in simulator.py (class FakeNewsSimulator),
the population-based model (PBM) in pbm_simulator.py (class PopulationSimulator),
and the numeric constants in config.py.  Machine floats are idealised as
rationals; numpy's exp is abstracted as an explicit function parameter (expFn),
and the two global pseudo-random generators (Python's random module and
numpy's np.random) are modelled as explicit value streams threaded through
every consuming call, in consumption order.
-/

/-! ## Constants (config.py) -/

/-- config.py: BASE_GAMMA = 0.3 (base fact-check effectiveness). -/
def BASE_GAMMA : ℚ := 3/10

/-- config.py: BETA1 = 0.4 (confirmation-bias weight). -/
def BETA1 : ℚ := 4/10

/-- config.py: BETA2 = 0.3 (emotional-susceptibility weight). -/
def BETA2 : ℚ := 3/10

/-- config.py: BETA3 = 0.2 (trust-level weight). -/
def BETA3 : ℚ := 2/10

/-- config.py: BETA4 = 0.3 (critical-thinking weight). -/
def BETA4 : ℚ := 3/10

/-- config.py: BOREDOM_PROB = 0.05, documented there as the probability of
spontaneous recovery.  (It is defined in config.py but never imported or used
by simulator.py.) -/
def BOREDOM_PROB : ℚ := 1/20

/-- config.py: MAX_NEW_BELIEVER_RATIO = 0.3, the cap on the fraction of
susceptibles that can convert per PBM round. -/
def maxNewBelieverRatio : ℚ := 3/10

/-! ## Agents and scenario parameters -/

/-- Mutable per-agent state plus static traits, as initialised by
FakeNewsSimulator._initialize_agents.  The field defaults are the
row.get(..., 0.5) / initial-state values used there. -/
structure Agent where
  belief : ℚ := 0
  shared : Bool := false
  confirmation_bias : ℚ := 1/2
  emotional_susceptibility : ℚ := 1/2
  trust_level : ℚ := 1/2
  critical_thinking : ℚ := 1/2
  fact_check_signal : ℚ := 1/2
  risk_perception : ℚ := 1/2
  scammed : Bool := false
  immune : Bool := false
deriving DecidableEq

instance : Inhabited Agent := ⟨{}⟩

/-- The four topic categories of config.py's CATEGORY_TRAIT table. -/
inductive TopicCategory
  | cybersecurity
  | campusRumors
  | financialScams
  | healthScare
deriving DecidableEq

/-- The agent traits that can be a category's primary vulnerability trait. -/
inductive TraitName
  | confirmationBias
  | emotionalSusceptibility
  | trustLevel
  | criticalThinking
deriving DecidableEq

/-- config.py: CATEGORY_TRAIT, mapping each category to its primary trait. -/
def CATEGORY_TRAIT : TopicCategory → TraitName
  | .cybersecurity => .trustLevel
  | .campusRumors => .confirmationBias
  | .financialScams => .criticalThinking
  | .healthScare => .emotionalSusceptibility

/-- The attribution_mode attribute read by simulate_fake_news_round. -/
inductive AttributionMode
  | weighted
  | randomMode
  | firstMode
deriving DecidableEq

/-- The sharing-score coefficients read via getattr with these defaults in
simulate_fake_news_round (share_belief_weight etc.). -/
structure ShareWeights where
  alpha : ℚ := 3
  betaEmo : ℚ := 12/10
  betaConf : ℚ := 8/10
  deltaJuice : ℚ := 8/10
  etaCrit : ℚ := 5/2
  offset : ℚ := -1
deriving DecidableEq

/-- Scenario parameters of one ABM round: the arguments of
simulate_fake_news_round plus the instance attributes it reads
(attribution_mode, belief_inertia, max_belief_delta, sharing weights),
with their getattr defaults. -/
structure SimParams where
  juice : ℚ
  topicWeight : ℚ
  topicCategory : Option TopicCategory := none
  intervention : Bool := false
  extraRounds : Bool := false
  attributionMode : AttributionMode := .weighted
  inertia : ℚ := 6/10
  maxDelta : ℚ := 2/10
  sw : ShareWeights := {}

/-! ## Random streams

Python's random module and numpy's np.random are two independent seeded
generators.  Each is modelled as a stream of values together with a cursor;
every consuming call reads the value at the cursor and advances it.  A seed
determines the whole stream, so equal streams model equal seeds. -/

/-- The two global generators: py is the stream of values produced by Python's
random module (random.random gives the value directly; random.choice consumes
one value of the same stream), npu the uniform stream behind np.random.choice. -/
structure RNG where
  py : ℕ → ℚ
  pyIdx : ℕ
  npu : ℕ → ℚ
  npIdx : ℕ

/-- random.random(): one draw from the Python stream. -/
def randomRandom (r : RNG) : ℚ × RNG :=
  (r.py r.pyIdx, { r with pyIdx := r.pyIdx + 1 })

/-- random.choice(l): consumes one value of the same Python stream as
random.random and turns it into an index into l. -/
def randomChoice (r : RNG) (l : List ℕ) : ℕ × RNG :=
  let u := r.py r.pyIdx
  (l.getD (min (l.length - 1) (u * l.length).floor.toNat) 0,
   { r with pyIdx := r.pyIdx + 1 })

/-- One uniform draw from the numpy stream. -/
def npUniform (r : RNG) : ℚ × RNG :=
  (r.npu r.npIdx, { r with npIdx := r.npIdx + 1 })

/-- Inverse-CDF selection: np.random.choice(l, p=probs) as the first element
whose cumulative probability exceeds the uniform draw u. -/
def pickWeighted : List ℕ → List ℚ → ℚ → ℕ
  | [], _, _ => 0
  | [x], _, _ => x
  | x :: _ :: _, [], _ => x
  | x :: y :: xs, q :: qs, u => if u < q then x else pickWeighted (y :: xs) qs (u - q)

/-! ## ABM helper computations (simulator.py) -/

/-- Thresholds and rates per juiciness tier, intervention and extra rounds
(FakeNewsSimulator._get_dynamic_parameters). -/
structure DynParams where
  theta_b : ℚ
  theta_s : ℚ
  lambda_decay : ℚ
  exposure_alpha : ℚ
deriving DecidableEq

/-- FakeNewsSimulator._get_dynamic_parameters. -/
def get_dynamic_parameters (juice : ℚ) (intervention extraRounds : Bool) : DynParams :=
  let base : DynParams :=
    if 95/100 ≤ juice then ⟨35/100, 55/100, 5/100, 1⟩
    else if 8/10 ≤ juice then ⟨42/100, 62/100, 8/100, 8/10⟩
    else ⟨48/100, 65/100, 1/10, 7/10⟩
  let d1 :=
    if intervention then
      { base with theta_s := base.theta_s * (13/10), lambda_decay := base.lambda_decay * (3/2) }
    else base
  if extraRounds then { d1 with lambda_decay := d1.lambda_decay * (12/10) } else d1

/-- Category-adjusted trait weights (FakeNewsSimulator._calculate_trait_weights):
each base coefficient is multiplied by 1.4 if its trait is the category's
primary trait, else by 0.9; no category leaves them unchanged. -/
structure TraitWeights where
  wConf : ℚ
  wEmo : ℚ
  wTrust : ℚ
  wCrit : ℚ
deriving DecidableEq

/-- FakeNewsSimulator._calculate_trait_weights. -/
def calculate_trait_weights (cat : Option TopicCategory) : TraitWeights :=
  match cat with
  | none => ⟨BETA1, BETA2, BETA3, BETA4⟩
  | some c =>
    let m := CATEGORY_TRAIT c
    ⟨BETA1 * (if m = TraitName.confirmationBias then 14/10 else 9/10),
     BETA2 * (if m = TraitName.emotionalSusceptibility then 14/10 else 9/10),
     BETA3 * (if m = TraitName.trustLevel then 14/10 else 9/10),
     BETA4 * (if m = TraitName.criticalThinking then 14/10 else 9/10)⟩

/-- FakeNewsSimulator._calculate_belief_probability. -/
def calculate_belief_probability (a : Agent) (w : TraitWeights)
    (topicWeight juice : ℚ) : ℚ :=
  let trait_influence :=
    w.wConf * a.confirmation_bias
    + w.wEmo * a.emotional_susceptibility * (topicWeight + 2/10 * juice)
    + w.wTrust * a.trust_level
  let resistance := w.wCrit * a.critical_thinking
  let base_prob := 2/10 + 15/100 * topicWeight + 10/100 * juice
  min (95/100) (max 0 (base_prob + trait_influence - resistance))

/-- The P_believe pipeline of the standard update in
simulate_fake_news_round: social factor, exposure factor, fact-check
impact, clamped to be non-negative. -/
def pBelieve (expFn : ℚ → ℚ) (p : SimParams) (a : Agent) (exposures : ℕ) : ℚ :=
  let d := get_dynamic_parameters p.juice p.intervention p.extraRounds
  let w := calculate_trait_weights p.topicCategory
  let gamma := BASE_GAMMA * (if p.intervention then 5/2 else 1)
  let P_star := calculate_belief_probability a w p.topicWeight p.juice
  let social := 1 / (1 + expFn (-(d.exposure_alpha * (exposures : ℚ))))
  let exposure_factor := min (8/10) (social * (1 + 35/100 * p.juice))
  let fact_check_impact := gamma * a.fact_check_signal * (if p.intervention then 3/2 else 8/10)
  max 0 (exposure_factor * P_star - fact_check_impact)

/-- The pre-smoothing belief candidate new_beliefs[i] computed by the first
per-agent loop of simulate_fake_news_round (decay when extra_rounds or no
exposure; otherwise threshold on P_believe with the exposure-dependent caps,
else decay with the second modifier). -/
def calcNewBelief (expFn : ℚ → ℚ) (G : ℕ → List ℕ) (p : SimParams)
    (sharedOld : ℕ → Bool) (beliefs : ℕ → ℚ) (states : List Agent) (i : ℕ) : ℚ :=
  let d := get_dynamic_parameters p.juice p.intervention p.extraRounds
  let exposures := ((G i).filter (fun j => sharedOld j)).length
  let a := states.getD i default
  if p.extraRounds || exposures = 0 then
    beliefs i * expFn (-(d.lambda_decay * max (6/10) (1 - (exposures : ℚ)/8)))
  else
    let P_believe := pBelieve expFn p a exposures
    if d.theta_b < P_believe then
      if 3 ≤ exposures then min 1 (P_believe + 1/10) else min (9/10) P_believe
    else
      beliefs i * expFn (-(d.lambda_decay * max (5/10) (1 - (exposures : ℚ)/10)))

/-- The clamp of per-round belief change to [-MAX_DELTA, MAX_DELTA]. -/
def clampDelta (m x : ℚ) : ℚ := max (-m) (min m x)

/-- Clamp to the valid belief range [0, 1]. -/
def clamp01 (x : ℚ) : ℚ := max 0 (min 1 x)

/-- The committed, post-inertia belief of a non-immune agent:
old + (1 - INERTIA) * capped delta, clamped to [0,1]. -/
def smoothedBelief (inertia maxDelta oldB targetB : ℚ) : ℚ :=
  clamp01 (oldB + (1 - inertia) * clampDelta maxDelta (targetB - oldB))

/-- The logistic _sig used in the sharing decision. -/
def sigFn (expFn : ℚ → ℚ) (x : ℚ) : ℚ := 1 / (1 + expFn (-x))

/-! ## One ABM round (FakeNewsSimulator.simulate_fake_news_round) -/

/-- Output of one ABM round: updated agent states, the returned shared-flag
list, the transmissions logged this round and the advanced generators. -/
structure RoundResult where
  states : List Agent
  sharedOut : List Bool
  transmissions : List (ℕ × ℕ)
  rng : RNG

/-- One step of the attribution loop: for an agent that transitioned from
non-believer (on the previous beliefs) to believer (on the pre-smoothing
candidate), pick a source among previously sharing neighbors per the
attribution mode and log (source, target). -/
def attributionStep (G : ℕ → List ℕ) (mode : AttributionMode)
    (sharedOld : ℕ → Bool) (beliefs : ℕ → ℚ) (theta_b : ℚ)
    (nb2 : ℕ → ℚ) (acc : List (ℕ × ℕ) × RNG) (i : ℕ) : List (ℕ × ℕ) × RNG :=
  let became := !decide (theta_b < beliefs i) && decide (theta_b < nb2 i)
  let cands := (G i).filter (fun j => sharedOld j)
  if became && !cands.isEmpty then
    match mode with
    | .randomMode =>
      let sr := randomChoice acc.2 cands
      (acc.1 ++ [(sr.1, i)], sr.2)
    | .firstMode => (acc.1 ++ [(cands.headD 0, i)], acc.2)
    | .weighted =>
      let ws := cands.map (fun j => max (1/100) (beliefs j))
      let total := ws.sum
      if total ≤ 0 then
        let sr := randomChoice acc.2 cands
        (acc.1 ++ [(sr.1, i)], sr.2)
      else
        let ur := npUniform acc.2
        (acc.1 ++ [(pickWeighted cands (ws.map (fun w => w / total)) ur.1, i)], ur.2)
  else acc

/-- FakeNewsSimulator.simulate_fake_news_round.  In source order: snapshot the
previous shared flags and beliefs; compute the pre-smoothing candidates
new_beliefs; mark previous believers whose candidate fell to theta_b or below
as immune and zero their candidate; commit beliefs (immune agents are pinned
to 0, others get the inertia-smoothed, delta-capped, clamped update); compute
the sharing probability from the committed belief and draw one Bernoulli
sample per agent (in node order, also for immune agents, whose probability is
0); attribute new believers to previously sharing neighbors; commit the new
shared flags for every agent; return the shared flags. -/
def simulate_fake_news_round (expFn : ℚ → ℚ) (G : ℕ → List ℕ) (p : SimParams)
    (states : List Agent) (rng : RNG) : RoundResult :=
  let n := states.length
  let nodes := List.range n
  let sharedOld : ℕ → Bool := fun j => (states.getD j default).shared
  let beliefs : ℕ → ℚ := fun j => (states.getD j default).belief
  let d := get_dynamic_parameters p.juice p.intervention p.extraRounds
  let nb1 : ℕ → ℚ := fun i => calcNewBelief expFn G p sharedOld beliefs states i
  let immune2 : ℕ → Bool := fun i =>
    (states.getD i default).immune
    || (decide (d.theta_b < beliefs i) && decide (nb1 i ≤ d.theta_b))
  let nb2 : ℕ → ℚ := fun i =>
    if decide (d.theta_b < beliefs i) && decide (nb1 i ≤ d.theta_b) then 0 else nb1 i
  let committed : ℕ → ℚ := fun i =>
    if immune2 i then 0
    else smoothedBelief p.inertia p.maxDelta (beliefs i) (nb2 i)
  let pShare : ℕ → ℚ := fun i =>
    let a := states.getD i default
    let score := p.sw.alpha * committed i
      + p.sw.betaEmo * a.emotional_susceptibility
      + p.sw.betaConf * a.confirmation_bias
      + p.sw.deltaJuice * p.juice
      - p.sw.etaCrit * a.critical_thinking
      + p.sw.offset
    let ps := sigFn expFn score * max 0 (committed i)
    if p.intervention then ps * (45/100) else ps
  let newShared : ℕ → Bool := fun i => decide (rng.py (rng.pyIdx + i) < pShare i)
  let rng1 : RNG := { rng with pyIdx := rng.pyIdx + n }
  let tr := nodes.foldl (attributionStep G p.attributionMode sharedOld beliefs d.theta_b nb2)
    ([], rng1)
  { states := nodes.map (fun i =>
      let a := states.getD i default
      { a with belief := committed i, shared := newShared i, immune := immune2 i }),
    sharedOut := nodes.map newShared,
    transmissions := tr.1,
    rng := tr.2 }

/-! ## The scam-variant round (FakeNewsSimulator.simulate_scam_round) -/

/-- The clamped scam probability 0.5*trust + 0.4*(1-risk) - 0.3*critical. -/
def scam_probability (a : Agent) : ℚ :=
  max 0 (min 1 (1/2 * a.trust_level + 4/10 * (1 - a.risk_perception)
    - 3/10 * a.critical_thinking))

/-- FakeNewsSimulator.simulate_scam_round: scammed stays scammed; with no
scammed neighbor an agent stays non-scammed; otherwise it becomes scammed
exactly when its clamped scam probability exceeds 0.5.  No generator is
consumed anywhere. -/
def simulate_scam_round (G : ℕ → List ℕ) (states : List Agent) : List Agent :=
  let scammedOld : ℕ → Bool := fun j => (states.getD j default).scammed
  (List.range states.length).map (fun i =>
    let a := states.getD i default
    let ns :=
      if scammedOld i then true
      else if ((G i).filter (fun j => scammedOld j)).length = 0 then false
      else decide (1/2 < scam_probability a)
    { a with scammed := ns })

/-! ## PBM (pbm_simulator.py, class PopulationSimulator) -/

/-- SimulationRates with its dataclass defaults 0.4 / 0.3 / 0.1. -/
structure SimulationRates where
  contact_rate : ℚ := 4/10
  belief_rate : ℚ := 3/10
  recovery_rate : ℚ := 1/10
deriving DecidableEq

/-- The PBM simulator state: fixed total population, current rates and the
three compartments. -/
structure PBMState where
  total_population : ℚ
  rates : SimulationRates
  susceptible : ℚ
  believers : ℚ
  immune : ℚ
deriving DecidableEq

/-- PopulationSimulator.__init__: initial_believers is clamped below at 0,
susceptible = N - initial_believers, immune = 0, default rates. -/
def initPBM (n ib : ℤ) : PBMState :=
  let ib' : ℤ := max 0 ib
  { total_population := (n : ℚ), rates := {},
    susceptible := (n : ℚ) - (ib' : ℚ), believers := (ib' : ℚ), immune := 0 }

/-- Python's round(x, 2), idealised over the rationals (ties are a
float-representability artifact and play no role in the claims). -/
def round2 (q : ℚ) : ℚ := (round (q * 100) : ℤ) / 100

/-- PopulationSimulator.adjust_rates: contact_rate is retuned only when
round(contact_rate, 2) == 0.40, belief_rate only when round(belief_rate, 2)
== 0.30; recovery_rate is set to 0.15 unconditionally under intervention,
else re-pinned to 0.10 only when round(recovery_rate, 2) == 0.10. -/
def adjust_rates (st : PBMState) (topic_weight juice : ℚ) (intervention : Bool) :
    PBMState :=
  let r := st.rates
  let r :=
    if round2 r.contact_rate = 4/10 then
      let v := min (8/10) (4/10 * (1 + 3/10 * max (1/10) (min (8/10) topic_weight)))
      { r with contact_rate := v }
    else r
  let r :=
    if round2 r.belief_rate = 3/10 then
      let v := min (7/10) (3/10 * (1 + 4/10 * max (1/10) (min (7/10) juice)))
      { r with belief_rate := v }
    else r
  let r :=
    if intervention then { r with recovery_rate := 1/10 * (3/2) }
    else if round2 r.recovery_rate = 1/10 then { r with recovery_rate := 1/10 * 1 }
    else r
  { st with rates := r }

/-- PopulationSimulator.simulate_step.  The Python body divides by
total_population with no guard, so N = 0 raises ZeroDivisionError; that is
modelled as none.  Otherwise: capped conversion, proportional recovery, and
the max(0, .) floors on the susceptible and believer compartments. -/
def simulate_step (st : PBMState) : Option PBMState :=
  if st.total_population = 0 then none
  else
    let S := st.susceptible
    let I := st.believers
    let R := st.immune
    let exposure_rate :=
      st.rates.contact_rate * st.rates.belief_rate * S * I / st.total_population
    let new_believers := min exposure_rate (S * maxNewBelieverRatio)
    let recoveries := st.rates.recovery_rate * I
    some { st with
      susceptible := max 0 (S - new_believers),
      believers := max 0 (I + new_believers - recoveries),
      immune := R + recoveries }

/-- k consecutive simulate_step calls, propagating the N = 0 failure. -/
def simulate_steps : ℕ → PBMState → Option PBMState
  | 0, st => some st
  | k + 1, st => (simulate_step st).bind (simulate_steps k)

/-! ## Run orchestration (graph generation, seeding, round iteration) -/

/-- The ordered node pairs (i, j), i < j, that nx.erdos_renyi_graph examines. -/
def pairList (n : ℕ) : List (ℕ × ℕ) :=
  (List.range n).flatMap (fun i =>
    (List.range n).filterMap (fun j => if i < j then some (i, j) else none))

/-- Erdős–Rényi generation with edge probability 0.2 over the Python stream:
each pair gets an edge when its draw is below 0.2; the adjacency list of a
node lists its neighbors in edge-insertion order, as networkx does. -/
def genGraph (n : ℕ) (rng : RNG) : (ℕ → List ℕ) × RNG :=
  let ps := pairList n
  let edges := ps.enum.filterMap (fun e =>
    if rng.py (rng.pyIdx + e.1) < 1/5 then some e.2 else none)
  (fun i => edges.filterMap (fun e =>
      if e.1 = i then some e.2 else if e.2 = i then some e.1 else none),
   { rng with pyIdx := rng.pyIdx + ps.length })

/-- Selection of an index below n from one uniform draw. -/
def natFloor (u : ℚ) (n : ℕ) : ℕ := min (n - 1) (u * n).floor.toNat

/-- random.sample(nodes, min(2, n)): selection without replacement driven by
the Python stream, one draw per selected element. -/
def sampleTwo (n : ℕ) (rng : RNG) : List ℕ × RNG :=
  if n = 0 then ([], rng)
  else if n = 1 then
    let ur := randomRandom rng
    ([natFloor ur.1 1], ur.2)
  else
    let u1 := randomRandom rng
    let u2 := randomRandom u1.2
    let i1 := natFloor u1.1 n
    let i2' := natFloor u2.1 (n - 1)
    ([i1, if i1 ≤ i2' then i2' + 1 else i2'], u2.2)

/-- FakeNewsSimulator.seed_initial_state: the sampled agents get belief 1 and
shared true (or scammed true in the scam variant); everyone else is kept. -/
def seed_initial_state (isScam : Bool) (states : List Agent) (rng : RNG) :
    List Agent × RNG :=
  let pr := sampleTwo states.length rng
  ((List.range states.length).map (fun i =>
      let a := states.getD i default
      if pr.1.contains i then
        if isScam then { a with scammed := true }
        else { a with belief := 1, shared := true }
      else a),
   pr.2)

/-- k consecutive ABM rounds from a given state, threading the generators. -/
def iterRounds (expFn : ℚ → ℚ) (G : ℕ → List ℕ) (p : SimParams) :
    ℕ → List Agent → RNG → List Agent × RNG
  | 0, s, r => (s, r)
  | k + 1, s, r =>
    let res := simulate_fake_news_round expFn G p s r
    iterRounds expFn G p k res.states res.rng

/-- Per-run observable output: the per-round believer counts (the GUI counts
the true entries of the returned shared list, gui.py run_next_round) and the
per-round transmission log (transmission_history). -/
structure RunOutput where
  counts : List ℕ
  history : List (List (ℕ × ℕ))
deriving DecidableEq

/-- Rounds t, t+1, ... of a run: each round's intervention flag comes from the
schedule, and the believer count and transmissions are collected. -/
def runRounds (expFn : ℚ → ℚ) (G : ℕ → List ℕ) (p : SimParams)
    (schedule : ℕ → Bool) : ℕ → ℕ → List Agent → RNG → RunOutput
  | 0, _, _, _ => { counts := [], history := [] }
  | k + 1, t, s, r =>
    let res := simulate_fake_news_round expFn G
      { p with intervention := schedule t } s r
    let rest := runRounds expFn G p schedule k (t + 1) res.states res.rng
    { counts := res.sharedOut.countP (fun b => b) :: rest.counts,
      history := res.transmissions :: rest.history }

/-- A full N-round ABM run from a seed: generate the contact graph from the
seeded stream, seed the initial believers, then run the rounds.  The trait
table supplies the initial agent states (belief 0, shared false). -/
def runSimulation (expFn : ℚ → ℚ) (p : SimParams) (schedule : ℕ → Bool)
    (rounds : ℕ) (traitTable : List Agent) (rng : RNG) : RunOutput :=
  let gr := genGraph traitTable.length rng
  let sr := seed_initial_state false traitTable gr.2
  runRounds expFn gr.1 p schedule rounds 0 sr.1 sr.2

/-- A computable stand-in for the real exponential used to instantiate the
expFn parameter on concrete inputs: 1/(1-x) below zero, 1+x above.  It shares
with exp the facts the concrete runs rely on: positive everywhere on the
inputs used, below 1 on negatives, and 1 at 0. -/
def myExp (x : ℚ) : ℚ := if x < 0 then 1 / (1 - x) else 1 + x

/-! ## Shared helper lemmas -/

/-- A getD access into a map over List.range is just the function value. -/
lemma getD_map_range {α : Type _} [Inhabited α] (f : ℕ → α) (n i : ℕ) (h : i < n) :
    ((List.range n).map f).getD i default = f i := by
  have h1 : i < ((List.range n).map f).length := by simpa using h
  rw [List.getD_eq_getElem _ _ h1]
  simp

/-- One PBM step from a well-formed state succeeds, keeps the population and
rates, keeps the compartments non-negative and conserves their sum: the
conversion cap keeps new_believers at most 30% of the susceptibles and the
recovery at most the believers, so neither max(0, .) floor binds. -/
lemma simulate_step_conserves (st : PBMState)
    (hN : 0 < st.total_population)
    (hS : 0 ≤ st.susceptible) (hI : 0 ≤ st.believers) (hR : 0 ≤ st.immune)
    (hc : 0 ≤ st.rates.contact_rate) (hb : 0 ≤ st.rates.belief_rate)
    (hr0 : 0 ≤ st.rates.recovery_rate) (hr1 : st.rates.recovery_rate ≤ 1) :
    ∃ st', simulate_step st = some st' ∧
      st'.total_population = st.total_population ∧ st'.rates = st.rates ∧
      0 ≤ st'.susceptible ∧ 0 ≤ st'.believers ∧ 0 ≤ st'.immune ∧
      st'.susceptible + st'.believers + st'.immune
        = st.susceptible + st.believers + st.immune := by
  have hN' : st.total_population ≠ 0 := ne_of_gt hN
  unfold simulate_step
  rw [if_neg hN']
  set er := st.rates.contact_rate * st.rates.belief_rate * st.susceptible
    * st.believers / st.total_population with her
  have her0 : 0 ≤ er := by
    apply div_nonneg _ (le_of_lt hN)
    have := mul_nonneg (mul_nonneg (mul_nonneg hc hb) hS) hI
    linarith
  set nb := min er (st.susceptible * maxNewBelieverRatio) with hnb
  have hnb0 : 0 ≤ nb :=
    le_min her0 (mul_nonneg hS (by norm_num [maxNewBelieverRatio]))
  have hnbS : nb ≤ st.susceptible * (3/10) := by
    have h1 : nb ≤ st.susceptible * maxNewBelieverRatio := min_le_right _ _
    simpa [maxNewBelieverRatio] using h1
  set rec := st.rates.recovery_rate * st.believers with hrec
  have hrec0 : 0 ≤ rec := mul_nonneg hr0 hI
  have hrecI : rec ≤ st.believers := by
    calc rec ≤ 1 * st.believers := by
          exact mul_le_mul_of_nonneg_right hr1 hI
      _ = st.believers := one_mul _
  have hSfloor : max 0 (st.susceptible - nb) = st.susceptible - nb := by
    apply max_eq_right
    linarith
  have hIfloor : max 0 (st.believers + nb - rec) = st.believers + nb - rec := by
    apply max_eq_right
    linarith
  refine ⟨_, rfl, rfl, rfl, ?_, ?_, ?_, ?_⟩
  · rw [hSfloor]; linarith
  · rw [hIfloor]; linarith
  · simpa using by linarith
  · rw [hSfloor, hIfloor]; ring

/-- Iterated PBM steps from a well-formed state succeed and conserve the
compartment sum. -/
lemma simulate_steps_conserves (k : ℕ) : ∀ st : PBMState,
    0 < st.total_population →
    0 ≤ st.susceptible → 0 ≤ st.believers → 0 ≤ st.immune →
    0 ≤ st.rates.contact_rate → 0 ≤ st.rates.belief_rate →
    0 ≤ st.rates.recovery_rate → st.rates.recovery_rate ≤ 1 →
    ∃ st', simulate_steps k st = some st' ∧
      st'.susceptible + st'.believers + st'.immune
        = st.susceptible + st.believers + st.immune := by
  induction k with
  | zero => exact fun st _ _ _ _ _ _ _ _ => ⟨st, rfl, rfl⟩
  | succ k ih =>
    intro st hN hS hI hR hc hb hr0 hr1
    obtain ⟨st1, hstep, hNtot, hrates, hS1, hI1, hR1, hsum1⟩ :=
      simulate_step_conserves st hN hS hI hR hc hb hr0 hr1
    obtain ⟨st2, hsteps, hsum2⟩ := ih st1 (hNtot ▸ hN) hS1 hI1 hR1
      (hrates ▸ hc) (hrates ▸ hb) (hrates ▸ hr0) (hrates ▸ hr1)
    refine ⟨st2, ?_, by rw [hsum2, hsum1]⟩
    show (simulate_step st).bind (simulate_steps k) = some st2
    rw [hstep]
    exact hsteps

/-! ## Claim C6 -/

/-- C6: the claim says simulate_step never raises because the division by N in
exposure_rate is guarded, with N = 0 treated as exposure_rate = 0.  The code
has no guard: exposure_rate divides by total_population unconditionally
(pbm_simulator.py line 82), so a simulator built over population 0 raises
ZeroDivisionError on its first step.  The model returns none exactly there;
evaluating the step at the failing input exhibits the failure. -/
theorem simulate_step_zero_population :
    simulate_step (initPBM 0 2) = none ∧ (initPBM 0 2).total_population = 0 := by
  with_unfolding_all decide

/-! ## Claim C2 -/

/-- C2 counterexample: the claim quantifies over every PBM initial state with
susceptible = N - initial_believers, believers = initial_believers, immune = 0
and rates in [0,1].  The constructor clamps initial_believers below at 0 but
not above at N, so N = 1 with initial_believers = 2 is such a state (S = -1);
its compartment sum starts at N = 1 but after one step the S floor max(0, .)
binds on the negative susceptible compartment and the sum becomes 1.7. -/
theorem pbm_conservation_counterexample :
    (initPBM 1 2).susceptible + (initPBM 1 2).believers + (initPBM 1 2).immune = 1 ∧
    (simulate_step (initPBM 1 2)).map
        (fun st => st.susceptible + st.believers + st.immune) = some (17/10) ∧
    ((17 : ℚ)/10) ≠ 1 := by
  with_unfolding_all decide

/-- C2 (amended): with the additional hypothesis 0 ≤ initial_believers ≤ N
(and N positive) forced by the counterexample, conservation holds exactly:
from susceptible = N - initial_believers, believers = initial_believers,
immune = 0, with rates in [0,1], every sequence of simulate_step calls
succeeds and keeps susceptible + believers + immune equal to N — recoveries
move mass from believers to immune, new_believers moves mass from
susceptible to believers, and neither max(0, .) floor ever binds. -/
theorem pbm_conservation_amended (r : SimulationRates) (n ib : ℤ) (k : ℕ)
    (hc0 : 0 ≤ r.contact_rate) (hc1 : r.contact_rate ≤ 1)
    (hb0 : 0 ≤ r.belief_rate) (hb1 : r.belief_rate ≤ 1)
    (hr0 : 0 ≤ r.recovery_rate) (hr1 : r.recovery_rate ≤ 1)
    (hib : 0 ≤ ib) (hin : ib ≤ n) (hn : 0 < n) :
    ∃ st, simulate_steps k { initPBM n ib with rates := r } = some st ∧
      st.susceptible + st.believers + st.immune = (n : ℚ) := by
  have hibQ : (0:ℚ) ≤ (ib:ℚ) := by exact_mod_cast hib
  have hinQ : (ib:ℚ) ≤ (n:ℚ) := by exact_mod_cast hin
  have hnQ : (0:ℚ) < (n:ℚ) := by exact_mod_cast hn
  have hmax : ((max 0 ib : ℤ) : ℚ) = (ib:ℚ) := by rw [max_eq_right hib]
  obtain ⟨st, hsteps, hsum⟩ := simulate_steps_conserves k
    { initPBM n ib with rates := r }
    (show (0:ℚ) < (n:ℚ) from hnQ)
    (show (0:ℚ) ≤ (n:ℚ) - ((max 0 ib : ℤ):ℚ) by rw [hmax]; linarith)
    (show (0:ℚ) ≤ ((max 0 ib : ℤ):ℚ) by rw [hmax]; exact hibQ)
    (le_refl 0) hc0 hb0 hr0 hr1
  refine ⟨st, hsteps, ?_⟩
  rw [hsum]
  show (n:ℚ) - ((max 0 ib : ℤ):ℚ) + ((max 0 ib : ℤ):ℚ) + 0 = (n:ℚ)
  ring

/-- C2 amended, instantiated: default rates, N = 10, initial_believers = 2,
three steps. -/
theorem pbm_conservation_amended_witness :
    ((0:ℚ) ≤ ({} : SimulationRates).contact_rate ∧
      ({} : SimulationRates).contact_rate ≤ 1 ∧
      (0:ℚ) ≤ ({} : SimulationRates).belief_rate ∧
      ({} : SimulationRates).belief_rate ≤ 1 ∧
      (0:ℚ) ≤ ({} : SimulationRates).recovery_rate ∧
      ({} : SimulationRates).recovery_rate ≤ 1 ∧
      (0:ℤ) ≤ 2 ∧ (2:ℤ) ≤ 10 ∧ (0:ℤ) < 10) ∧
    ∃ st, simulate_steps 3 { initPBM 10 2 with rates := {} } = some st ∧
      st.susceptible + st.believers + st.immune = ((10 : ℤ) : ℚ) :=
  ⟨by with_unfolding_all decide,
   pbm_conservation_amended {} 10 2 3 (by with_unfolding_all decide)
     (by with_unfolding_all decide) (by with_unfolding_all decide)
     (by with_unfolding_all decide) (by with_unfolding_all decide)
     (by with_unfolding_all decide) (by decide) (by decide) (by decide)⟩

/-! ## Claim C8 -/

/-- C8 counterexample: the claim says a preset contact_rate different from the
default 0.4 is never retuned.  The code's sentinel test is
round(contact_rate, 2) == 0.40, not exact equality: the preset 0.401 is not
0.4, yet one adjust_rates call with topic weight 0.5 retunes it to 0.46. -/
theorem adjust_rates_counterexample :
    ((401 : ℚ)/1000) ≠ 4/10 ∧
    (adjust_rates
        { total_population := 10, rates := { contact_rate := 401/1000 },
          susceptible := 8, believers := 2, immune := 0 }
        (1/2) (1/2) false).rates.contact_rate = 23/50 ∧
    ((23 : ℚ)/50) ≠ 401/1000 := by
  with_unfolding_all decide

/-- C8 (amended): adjust_rates retunes contact_rate exactly when
round(contact_rate, 2) == 0.40 — two-decimal rounding equality, not exact
equality with the default — to min(0.8, 0.4*(1 + 0.3*clamp(topic_weight,
0.1, 0.8))), and leaves it unchanged otherwise (hence unchanged under
repeated calls); analogously belief_rate is retuned exactly when
round(belief_rate, 2) == 0.30, to min(0.7, 0.3*(1 + 0.4*clamp(juice, 0.1,
0.7))). -/
theorem adjust_rates_amended (st : PBMState) (tw j : ℚ) (iv : Bool) :
    (adjust_rates st tw j iv).rates.contact_rate =
      (if round2 st.rates.contact_rate = 4/10
        then min (8/10) (4/10 * (1 + 3/10 * max (1/10) (min (8/10) tw)))
        else st.rates.contact_rate) ∧
    (adjust_rates st tw j iv).rates.belief_rate =
      (if round2 st.rates.belief_rate = 3/10
        then min (7/10) (3/10 * (1 + 4/10 * max (1/10) (min (7/10) j)))
        else st.rates.belief_rate) := by
  unfold adjust_rates
  by_cases h1 : round2 st.rates.contact_rate = 4/10 <;>
    by_cases h2 : round2 st.rates.belief_rate = 3/10 <;>
      by_cases h3 : round2 st.rates.recovery_rate = 1/10 <;>
        cases iv <;>
          simp [h1, h2, h3] <;> (constructor <;> split_ifs <;> rfl)

/-! ## Claim C9 -/

/-- Characterization of one scam-round transition: the new scammed flag is a
pure boolean function of the old flag, the presence of a scammed neighbor,
and the agent's own clamped scam probability. -/
lemma scam_round_char (G : ℕ → List ℕ) (s : List Agent) (i : ℕ) (hi : i < s.length) :
    ((simulate_scam_round G s).getD i default).scammed =
      ((s.getD i default).scammed ||
        (decide (((G i).filter (fun j => (s.getD j default).scammed)).length ≠ 0) &&
          decide (1/2 < scam_probability (s.getD i default)))) := by
  unfold simulate_scam_round
  rw [getD_map_range _ _ _ hi]
  dsimp only
  by_cases hsc : (s.getD i default).scammed = true
  · simp only [hsc, if_true, Bool.true_or]
  · rw [Bool.not_eq_true] at hsc
    simp only [hsc, Bool.false_eq_true, if_false, Bool.false_or]
    by_cases hemp : ((G i).filter (fun j => (s.getD j default).scammed)).length = 0
    · simp only [hemp]
      norm_num
    · rw [if_neg hemp]
      have hd : decide (((G i).filter (fun j => (s.getD j default).scammed)).length ≠ 0)
          = true := decide_eq_true hemp
      rw [hd, Bool.true_and]

/-- C9: the scam-variant round is deterministic and trait-local.  For every
agent in range, the post-round scammed flag equals: previous flag (scammed
agents stay scammed forever), OR-ed with (has at least one scammed neighbor
AND clamp(0.5*trust_level + 0.4*(1 - risk_perception) -
0.3*critical_thinking, 0, 1) > 0.5) — no generator appears anywhere in
simulate_scam_round's signature, so there is no randomness; and any two
agents with identical relevant traits, identical previous flags and the same
has-a-scammed-neighbor status get identical outcomes. -/
theorem scam_round_deterministic (G : ℕ → List ℕ) (s : List Agent) (i : ℕ)
    (hi : i < s.length) :
    (((simulate_scam_round G s).getD i default).scammed =
      ((s.getD i default).scammed ||
        (decide (((G i).filter (fun j => (s.getD j default).scammed)).length ≠ 0) &&
          decide (1/2 < scam_probability (s.getD i default))))) ∧
    (∀ j, j < s.length →
      (s.getD j default).trust_level = (s.getD i default).trust_level →
      (s.getD j default).risk_perception = (s.getD i default).risk_perception →
      (s.getD j default).critical_thinking = (s.getD i default).critical_thinking →
      (s.getD j default).scammed = (s.getD i default).scammed →
      ((((G j).filter (fun m => (s.getD m default).scammed)).length = 0)
        ↔ (((G i).filter (fun m => (s.getD m default).scammed)).length = 0)) →
      ((simulate_scam_round G s).getD j default).scammed
        = ((simulate_scam_round G s).getD i default).scammed) := by
  refine ⟨scam_round_char G s i hi, ?_⟩
  intro j hj ht hr hc hs hexp
  rw [scam_round_char G s j hj, scam_round_char G s i hi]
  have hp : scam_probability (s.getD j default) = scam_probability (s.getD i default) := by
    unfold scam_probability
    rw [ht, hr, hc]
  have hd : decide (((G j).filter (fun m => (s.getD m default).scammed)).length ≠ 0)
      = decide (((G i).filter (fun m => (s.getD m default).scammed)).length ≠ 0) := by
    apply decide_eq_decide.mpr
    exact not_congr hexp
  rw [hp, hs, hd]

/-- C9 instantiated: a two-agent line where agent 1 is scammed; agent 0 is
in range and the characterization applies to it. -/
theorem scam_round_deterministic_witness :
    (0 < ([{ trust_level := 1, risk_perception := 0, critical_thinking := 0 },
           { scammed := true }] : List Agent).length) ∧
    ((((simulate_scam_round (fun i => if i = 0 then [1] else [0])
          [{ trust_level := 1, risk_perception := 0, critical_thinking := 0 },
           { scammed := true }]).getD 0 default).scammed =
      ((([{ trust_level := 1, risk_perception := 0, critical_thinking := 0 },
           { scammed := true }] : List Agent).getD 0 default).scammed ||
        (decide ((((fun i => if i = 0 then [1] else [0]) 0).filter
            (fun j => (([{ trust_level := 1, risk_perception := 0, critical_thinking := 0 },
               { scammed := true }] : List Agent).getD j default).scammed)).length ≠ 0) &&
          decide (1/2 < scam_probability
            (([{ trust_level := 1, risk_perception := 0, critical_thinking := 0 },
               { scammed := true }] : List Agent).getD 0 default))))) ∧
    (∀ j, j < ([{ trust_level := 1, risk_perception := 0, critical_thinking := 0 },
           { scammed := true }] : List Agent).length →
      (([{ trust_level := 1, risk_perception := 0, critical_thinking := 0 },
           { scammed := true }] : List Agent).getD j default).trust_level
        = (([{ trust_level := 1, risk_perception := 0, critical_thinking := 0 },
           { scammed := true }] : List Agent).getD 0 default).trust_level →
      (([{ trust_level := 1, risk_perception := 0, critical_thinking := 0 },
           { scammed := true }] : List Agent).getD j default).risk_perception
        = (([{ trust_level := 1, risk_perception := 0, critical_thinking := 0 },
           { scammed := true }] : List Agent).getD 0 default).risk_perception →
      (([{ trust_level := 1, risk_perception := 0, critical_thinking := 0 },
           { scammed := true }] : List Agent).getD j default).critical_thinking
        = (([{ trust_level := 1, risk_perception := 0, critical_thinking := 0 },
           { scammed := true }] : List Agent).getD 0 default).critical_thinking →
      (([{ trust_level := 1, risk_perception := 0, critical_thinking := 0 },
           { scammed := true }] : List Agent).getD j default).scammed
        = (([{ trust_level := 1, risk_perception := 0, critical_thinking := 0 },
           { scammed := true }] : List Agent).getD 0 default).scammed →
      (((((fun i => if i = 0 then [1] else [0]) j).filter
          (fun m => (([{ trust_level := 1, risk_perception := 0, critical_thinking := 0 },
             { scammed := true }] : List Agent).getD m default).scammed)).length = 0)
        ↔ ((((fun i => if i = 0 then [1] else [0]) 0).filter
          (fun m => (([{ trust_level := 1, risk_perception := 0, critical_thinking := 0 },
             { scammed := true }] : List Agent).getD m default).scammed)).length = 0)) →
      ((simulate_scam_round (fun i => if i = 0 then [1] else [0])
          [{ trust_level := 1, risk_perception := 0, critical_thinking := 0 },
           { scammed := true }]).getD j default).scammed
        = ((simulate_scam_round (fun i => if i = 0 then [1] else [0])
          [{ trust_level := 1, risk_perception := 0, critical_thinking := 0 },
           { scammed := true }]).getD 0 default).scammed)) :=
  ⟨by decide,
   scam_round_deterministic (fun i => if i = 0 then [1] else [0])
     [{ trust_level := 1, risk_perception := 0, critical_thinking := 0 },
      { scammed := true }] 0 (by decide)⟩

/-! ## Concrete ABM configurations used by the remaining claims -/

/-- A maximally susceptible agent: full confirmation bias, emotional
susceptibility and trust, no critical thinking and no fact checking. -/
def agentStrong : Agent :=
  { belief := 0, shared := false, confirmation_bias := 1, emotional_susceptibility := 1,
    trust_level := 1, critical_thinking := 0, fact_check_signal := 0, risk_perception := 1/2 }

/-- A seeded spreader: same traits, full belief, sharing. -/
def agentSeed : Agent := { agentStrong with belief := 1, shared := true }

/-- Two agents joined by one edge. -/
def lineGraph2 : ℕ → List ℕ := fun i => if i = 0 then [1] else [0]

/-- Agent 0 joined to agents 1, 2, 3. -/
def starGraph4 : ℕ → List ℕ := fun i => if i = 0 then [1, 2, 3] else [0]

/-- A graph with no edges. -/
def noEdges : ℕ → List ℕ := fun _ => []

/-- Regular-news scenario: juiciness 0.5 (theta_b = 0.48, lambda = 0.1,
alpha = 0.7), topic weight 1, no category, 'first' attribution,
all tunables at their defaults. -/
def baseParams : SimParams := { juice := 1/2, topicWeight := 1, attributionMode := .firstMode }

/-- A Python stream of constant 0.99 draws (every Bernoulli check fails). -/
def rngNines : RNG := { py := fun _ => 99/100, pyIdx := 0, npu := fun _ => 0, npIdx := 0 }

/-- A Python stream whose third value is 0 and all others 0.99: the draw at
position 2 lands differently depending on which consumer reaches it. -/
def rngSplit : RNG :=
  { py := fun k => if k = 2 then 0 else 99/100, pyIdx := 0, npu := fun _ => 0, npIdx := 0 }

/-- A schedule with no intervention in any round. -/
def noIntervention : ℕ → Bool := fun _ => false

/-- Susceptible agent 0 next to the seeded spreader 1. -/
def pairSusceptible : List Agent := [agentStrong, agentSeed]

/-- Same pair, but agent 0 is already immune. -/
def pairImmune : List Agent := [{ agentStrong with immune := true }, agentSeed]

/-- Same pair, but agent 0 is a previous believer at belief 0.6. -/
def pairBeliever : List Agent := [{ agentStrong with belief := 6/10 }, agentSeed]

/-- A single isolated agent with belief 0.5, just above theta_b = 0.48. -/
def soloHalf : List Agent := [{ agentStrong with belief := 1/2 }]

/-- Agent 0 with three seeded sharing neighbors. -/
def quadSusceptible : List Agent := [agentStrong, agentSeed, agentSeed, agentSeed]

/-! ## Claim C10 -/

/-- C10: both the immunity transition and the became-believer test of the
transmission attribution read the pre-smoothing candidate new_beliefs, not
the committed post-smoothing belief.  (a) In the pair configuration agent 0's
candidate is above theta_b = 12/25, so it is logged as the transmission
target (1, 0), while its committed belief after inertia smoothing is only
2/25 ≤ theta_b.  (b) The isolated agent at belief 1/2 > theta_b decays to
candidate 5/11 ≤ theta_b and is marked immune with belief forced to 0, even
though smoothing alone would have committed 53/110 > theta_b. -/
theorem presmoothing_semantics :
    ((simulate_fake_news_round myExp lineGraph2 baseParams pairSusceptible rngNines).transmissions
        = [(1, 0)] ∧
      ((simulate_fake_news_round myExp lineGraph2 baseParams pairSusceptible
          rngNines).states.getD 0 default).belief = 2/25 ∧
      ((2 : ℚ)/25) ≤ 12/25) ∧
    (calcNewBelief myExp noEdges baseParams
        (fun j => (soloHalf.getD j default).shared)
        (fun j => (soloHalf.getD j default).belief) soloHalf 0 = 5/11 ∧
      ((5 : ℚ)/11) ≤ 12/25 ∧
      ((12 : ℚ)/25) < (soloHalf.getD 0 default).belief ∧
      ((simulate_fake_news_round myExp noEdges baseParams soloHalf
          rngNines).states.getD 0 default).immune = true ∧
      ((simulate_fake_news_round myExp noEdges baseParams soloHalf
          rngNines).states.getD 0 default).belief = 0 ∧
      ((12 : ℚ)/25) < smoothedBelief (6/10) (2/10) ((soloHalf.getD 0 default).belief) (5/11)) ∧
    (get_dynamic_parameters (1/2) false false).theta_b = 12/25 := by
  with_unfolding_all decide

/-! ## Claim C3 -/

/-- C3 counterexample: the claim's parenthetical says the attribution step is
skipped for immune agents.  It is not: agent 0 is immune before the round
(and stays immune with belief 0 and shared false), yet its pre-smoothing
candidate exceeds theta_b, so the attribution loop logs the transmission
(1, 0) with the immune agent as target. -/
theorem immune_attribution_counterexample :
    (pairImmune.getD 0 default).immune = true ∧
    (simulate_fake_news_round myExp lineGraph2 baseParams pairImmune rngNines).transmissions
      = [(1, 0)] ∧
    ((simulate_fake_news_round myExp lineGraph2 baseParams pairImmune
        rngNines).states.getD 0 default).immune = true ∧
    ((simulate_fake_news_round myExp lineGraph2 baseParams pairImmune
        rngNines).states.getD 0 default).belief = 0 ∧
    ((simulate_fake_news_round myExp lineGraph2 baseParams pairImmune
        rngNines).states.getD 0 default).shared = false := by
  with_unfolding_all decide

/-! ## Claim C5 -/

/-- The standard update clause as the spec words it: if P_believe > theta_b
then new_belief = min(0.95, P_believe), else exponential decay with
decay_modifier = max(0.5, 1 - exposures/10).  Stated only to be compared
with the source-derived calcNewBelief. -/
def specStandardNewBelief (theta_b P_believe oldBelief lambda_decay : ℚ)
    (exposures : ℕ) (expFn : ℚ → ℚ) : ℚ :=
  if theta_b < P_believe then min (95/100) P_believe
  else oldBelief * expFn (-(lambda_decay * max (5/10) (1 - (exposures : ℚ)/10)))

/-- C5 counterexample: with three sharing neighbors (exposures = 3) the code
takes the many-believers branch min(1.0, P_believe + 0.1): P_believe = 19/25
= 0.76 > theta_b = 12/25, and the candidate is 43/50 = 0.86, not the claimed
min(0.95, P_believe) = 19/25. -/
theorem standard_update_counterexample :
    ((starGraph4 0).filter (fun j => (quadSusceptible.getD j default).shared)).length = 3 ∧
    pBelieve myExp baseParams (quadSusceptible.getD 0 default) 3 = 19/25 ∧
    calcNewBelief myExp starGraph4 baseParams
        (fun j => (quadSusceptible.getD j default).shared)
        (fun j => (quadSusceptible.getD j default).belief) quadSusceptible 0 = 43/50 ∧
    specStandardNewBelief (12/25) (19/25) 0 (1/10) 3 myExp = 19/25 ∧
    ((43 : ℚ)/50) ≠ 19/25 := by
  with_unfolding_all decide

/-! ## Claim C7 -/

set_option maxRecDepth 2000 in
/-- C7 counterexample: two 2-round runs identical in everything (graph,
agents, parameters, both generator streams) except attribution_mode.  In
round 1 agent 0 becomes a believer with sharing neighbor 1, so the 'random'
mode consumes one draw of the same Python stream that drives the sharing
Bernoulli samples, while 'first' consumes none.  Round 2's sharing draws are
therefore shifted, and the believer-count trajectories diverge: [0, 1]
under 'first' versus [0, 0] under 'random'. -/
theorem attribution_trajectories_counterexample :
    (runRounds myExp lineGraph2 baseParams noIntervention 2 0 pairSusceptible
        rngSplit).counts = [0, 1] ∧
    (runRounds myExp lineGraph2 { baseParams with attributionMode := .randomMode }
        noIntervention 2 0 pairSusceptible rngSplit).counts = [0, 0] ∧
    ([0, 1] : List ℕ) ≠ [0, 0] := by
  with_unfolding_all decide

/-! ## Claim C4 -/

set_option maxRecDepth 4000 in
/-- C4: the claim describes a per-round boredom coin flip with probability
BOREDOM_PROB = 0.05 that can force a previous believer's new_belief to 0,
skipping the standard update.  No such flip exists: BOREDOM_PROB is defined
in config.py but never used by simulate_fake_news_round.  Concretely, for a
previous believer (belief 0.6 > theta_b = 12/25) with one sharing neighbor,
the pre-smoothing candidate equals the deterministic standard update
15181/21600 for EVERY generator stream — under the claim it would be 0 with
probability 1/20 — and the committed belief is likewise the constant
34621/54000 ≠ 0 for every stream. -/
theorem boredom_not_implemented :
    (12/25 : ℚ) < (pairBeliever.getD 0 default).belief ∧
    calcNewBelief myExp lineGraph2 baseParams
        (fun j => (pairBeliever.getD j default).shared)
        (fun j => (pairBeliever.getD j default).belief) pairBeliever 0 = 15181/21600 ∧
    (∀ rng : RNG,
      ((simulate_fake_news_round myExp lineGraph2 baseParams pairBeliever
          rng).states.getD 0 default).belief = 34621/54000) ∧
    ((34621 : ℚ)/54000) ≠ 0 ∧ BOREDOM_PROB = 1/20 := by
  refine ⟨by with_unfolding_all decide, by with_unfolding_all rfl,
    fun rng => ?_, by with_unfolding_all decide, rfl⟩
  with_unfolding_all rfl

/-- C7 (amended): within any single round, the attribution mode is invisible
to the dynamics — the committed agent states and the returned shared flags
are identical under any two modes from the same inputs; only the
transmission log and the generator cursors may differ.  (Across rounds of a
seeded run this no longer holds, because 'random' attribution consumes the
same Python stream that drives sharing, as the counterexample shows:
trajectories coincide whenever no stream-consuming attribution occurs.)
The proof is definitional: the states and sharedOut fields of the round
never read attributionMode. -/
theorem attribution_round_states_amended (expFn : ℚ → ℚ) (G : ℕ → List ℕ)
    (p : SimParams) (m1 m2 : AttributionMode) (s : List Agent) (rng : RNG) :
    (simulate_fake_news_round expFn G { p with attributionMode := m1 } s rng).states
      = (simulate_fake_news_round expFn G { p with attributionMode := m2 } s rng).states ∧
    (simulate_fake_news_round expFn G { p with attributionMode := m1 } s rng).sharedOut
      = (simulate_fake_news_round expFn G { p with attributionMode := m2 } s rng).sharedOut :=
  ⟨rfl, rfl⟩

/-! ## Claim C1 -/

/-- C1: determinism.  A full run is a pure function of the seed-derived
generator streams, the scenario parameters (juiciness, topic weight and
category, intervention schedule, attribution mode, sharing weights and
smoothing tunables) and the trait table: every random draw — graph edges,
initial seeding, sharing Bernoulli samples, attribution choices — is read
from the two explicit streams, and nothing else.  Two runs with identical
inputs therefore produce identical per-round believer-count sequences and
transmission logs, and replay the same contact graph and seeded
believers. -/
theorem runSimulation_deterministic (expFn : ℚ → ℚ) (p1 p2 : SimParams)
    (sch1 sch2 : ℕ → Bool) (rounds : ℕ) (t1 t2 : List Agent) (r1 r2 : RNG)
    (hp : p1 = p2) (hs : sch1 = sch2) (ht : t1 = t2) (hr : r1 = r2) :
    runSimulation expFn p1 sch1 rounds t1 r1 = runSimulation expFn p2 sch2 rounds t2 r2
      ∧ (genGraph t1.length r1).1 = (genGraph t2.length r2).1
      ∧ (seed_initial_state false t1 (genGraph t1.length r1).2).1
          = (seed_initial_state false t2 (genGraph t2.length r2).2).1 := by
  subst hp; subst hs; subst ht; subst hr
  exact ⟨rfl, rfl, rfl⟩

/-- C1 instantiated on the two-agent scenario: equal parameters, schedules,
trait tables and streams give equal one-round outputs. -/
theorem runSimulation_deterministic_witness :
    (baseParams = baseParams ∧ noIntervention = noIntervention ∧
      pairSusceptible = pairSusceptible ∧ rngSplit = rngSplit) ∧
    (runSimulation myExp baseParams noIntervention 1 pairSusceptible rngSplit
        = runSimulation myExp baseParams noIntervention 1 pairSusceptible rngSplit
      ∧ (genGraph pairSusceptible.length rngSplit).1
          = (genGraph pairSusceptible.length rngSplit).1
      ∧ (seed_initial_state false pairSusceptible
            (genGraph pairSusceptible.length rngSplit).2).1
          = (seed_initial_state false pairSusceptible
            (genGraph pairSusceptible.length rngSplit).2).1) :=
  ⟨⟨rfl, rfl, rfl, rfl⟩,
   runSimulation_deterministic myExp baseParams baseParams noIntervention
     noIntervention 1 pairSusceptible pairSusceptible rngSplit rngSplit
     rfl rfl rfl rfl⟩


/-- Pure arithmetic: a probability capped at 0.8 times one capped at 0.95,
minus a non-negative penalty, floored at 0, is at most 0.76. -/
lemma cap_bound (f P fci : ℚ) (hf : f ≤ 8/10) (hP0 : 0 ≤ P) (hP1 : P ≤ 95/100)
    (hfci : 0 ≤ fci) : max 0 (f * P - fci) ≤ 19/25 := by
  apply max_le (by norm_num)
  rcases le_or_lt f 0 with h | h
  · nlinarith
  · nlinarith


/-- The standard-update probability P_believe never exceeds 0.76 = 19/25:
the exposure factor is capped at 0.8, the pre-social probability at 0.95,
and the fact-check impact only subtracts. -/
lemma pBelieve_le (expFn : ℚ → ℚ) (p : SimParams) (a : Agent) (E : ℕ)
    (hfc : 0 ≤ a.fact_check_signal) : pBelieve expFn p a E ≤ 19/25 := by
  unfold pBelieve
  apply cap_bound
  · exact min_le_left _ _
  · unfold calculate_belief_probability
    exact le_min (by norm_num) (le_max_left _ _)
  · unfold calculate_belief_probability
    exact min_le_left _ _
  · apply mul_nonneg (mul_nonneg (mul_nonneg ?_ ?_) hfc)
    · split_ifs <;> norm_num
    · norm_num [BASE_GAMMA]
    · split_ifs <;> norm_num


/-- C5 (amended): in the standard update (not extra rounds, at least one
exposure, non-negative fact-check trait), whenever P_believe > theta_b the
pre-smoothing candidate is P_believe + 0.1 for three or more exposures and
P_believe otherwise — the source's caps min(1.0, .) and min(0.9, .) never
bind because P_believe ≤ 19/25 — not the claimed min(0.95, P_believe);
below the threshold, exponential decay with decay_modifier =
max(0.5, 1 - exposures/10) applies as claimed. -/
theorem standard_update_amended (expFn : ℚ → ℚ) (G : ℕ → List ℕ) (p : SimParams)
    (sharedOld : ℕ → Bool) (beliefs : ℕ → ℚ) (states : List Agent) (i : ℕ)
    (hx : p.extraRounds = false)
    (he : ((G i).filter (fun j => sharedOld j)).length ≠ 0)
    (hfc : 0 ≤ (states.getD i default).fact_check_signal) :
    pBelieve expFn p (states.getD i default)
        ((G i).filter (fun j => sharedOld j)).length ≤ 19/25 ∧
    calcNewBelief expFn G p sharedOld beliefs states i =
      (if (get_dynamic_parameters p.juice p.intervention p.extraRounds).theta_b
          < pBelieve expFn p (states.getD i default)
              ((G i).filter (fun j => sharedOld j)).length
       then
        (if 3 ≤ ((G i).filter (fun j => sharedOld j)).length
         then pBelieve expFn p (states.getD i default)
            ((G i).filter (fun j => sharedOld j)).length + 1/10
         else pBelieve expFn p (states.getD i default)
            ((G i).filter (fun j => sharedOld j)).length)
       else beliefs i * expFn (-((get_dynamic_parameters p.juice p.intervention
          p.extraRounds).lambda_decay
          * max (5/10) (1 - (((G i).filter (fun j => sharedOld j)).length : ℚ)/10)))) := by
  have hb := pBelieve_le expFn p (states.getD i default)
    ((G i).filter (fun j => sharedOld j)).length hfc
  refine ⟨hb, ?_⟩
  unfold calcNewBelief
  rw [hx]
  rw [if_neg (by simp [he])]
  dsimp only
  split_ifs with hth h3 <;>
    first
      | rfl
      | (apply min_eq_right; linarith)

/-- C5 amended, instantiated at the star configuration with three sharing
neighbors. -/
theorem standard_update_amended_witness :
    (baseParams.extraRounds = false ∧
      ((starGraph4 0).filter
        (fun j => (quadSusceptible.getD j default).shared)).length ≠ 0 ∧
      (0:ℚ) ≤ (quadSusceptible.getD 0 default).fact_check_signal) ∧
    (pBelieve myExp baseParams (quadSusceptible.getD 0 default)
        ((starGraph4 0).filter
          (fun j => (quadSusceptible.getD j default).shared)).length ≤ 19/25 ∧
    calcNewBelief myExp starGraph4 baseParams
        (fun j => (quadSusceptible.getD j default).shared)
        (fun j => (quadSusceptible.getD j default).belief) quadSusceptible 0 =
      (if (get_dynamic_parameters baseParams.juice baseParams.intervention
            baseParams.extraRounds).theta_b
          < pBelieve myExp baseParams (quadSusceptible.getD 0 default)
              ((starGraph4 0).filter
                (fun j => (quadSusceptible.getD j default).shared)).length
       then
        (if 3 ≤ ((starGraph4 0).filter
              (fun j => (quadSusceptible.getD j default).shared)).length
         then pBelieve myExp baseParams (quadSusceptible.getD 0 default)
            ((starGraph4 0).filter
              (fun j => (quadSusceptible.getD j default).shared)).length + 1/10
         else pBelieve myExp baseParams (quadSusceptible.getD 0 default)
            ((starGraph4 0).filter
              (fun j => (quadSusceptible.getD j default).shared)).length)
       else (fun j => (quadSusceptible.getD j default).belief) 0
          * myExp (-((get_dynamic_parameters baseParams.juice baseParams.intervention
            baseParams.extraRounds).lambda_decay
            * max (5/10) (1 - (((starGraph4 0).filter
                (fun j => (quadSusceptible.getD j default).shared)).length : ℚ)/10))))) :=
  ⟨⟨rfl, by with_unfolding_all decide, by with_unfolding_all decide⟩,
   standard_update_amended myExp starGraph4 baseParams
     (fun j => (quadSusceptible.getD j default).shared)
     (fun j => (quadSusceptible.getD j default).belief) quadSusceptible 0
     rfl (by with_unfolding_all decide) (by with_unfolding_all decide)⟩

/-- The attribution step never touches the Python value stream itself, only
the cursors: each branch keeps the py field. -/
lemma attributionStep_py (G : ℕ → List ℕ) (mode : AttributionMode)
    (sharedOld : ℕ → Bool) (beliefs : ℕ → ℚ) (theta_b : ℚ) (nb2 : ℕ → ℚ)
    (acc : List (ℕ × ℕ) × RNG) (i : ℕ) :
    ((attributionStep G mode sharedOld beliefs theta_b nb2 acc i).2).py = acc.2.py := by
  cases mode <;>
    (unfold attributionStep; dsimp only; split_ifs <;> simp [randomChoice, npUniform])

/-- The whole attribution loop keeps the Python value stream. -/
lemma foldl_attribution_py (G : ℕ → List ℕ) (mode : AttributionMode)
    (sharedOld : ℕ → Bool) (beliefs : ℕ → ℚ) (theta_b : ℚ) (nb2 : ℕ → ℚ) :
    ∀ (l : List ℕ) (acc : List (ℕ × ℕ) × RNG),
      ((l.foldl (attributionStep G mode sharedOld beliefs theta_b nb2) acc).2).py
        = acc.2.py := by
  intro l
  induction l with
  | nil => intro acc; rfl
  | cons x xs ih =>
    intro acc
    rw [List.foldl_cons, ih, attributionStep_py]

/-- A round advances the generator cursors but keeps the Python value
stream, so stream-wide facts survive the round. -/
lemma round_rng_py (expFn : ℚ → ℚ) (G : ℕ → List ℕ) (p : SimParams)
    (s : List Agent) (rng : RNG) :
    (simulate_fake_news_round expFn G p s rng).rng.py = rng.py := by
  unfold simulate_fake_news_round
  dsimp only
  rw [foldl_attribution_py]

/-- A round maps over List.range of the population, so the agent count is
invariant. -/
lemma round_states_length (expFn : ℚ → ℚ) (G : ℕ → List ℕ) (p : SimParams)
    (s : List Agent) (rng : RNG) :
    (simulate_fake_news_round expFn G p s rng).states.length = s.length := by
  unfold simulate_fake_news_round
  dsimp only
  simp

/-- One round keeps an immune agent immune, pins its committed belief to 0,
and (since its sharing probability is the sigmoid times max(0, 0) = 0 and
draws are non-negative) leaves it non-sharing. -/
lemma round_preserves_immune (expFn : ℚ → ℚ) (G : ℕ → List ℕ) (p : SimParams)
    (s : List Agent) (rng : RNG) (hpy : ∀ m, 0 ≤ rng.py m)
    (i : ℕ) (hi : i < s.length) (h : (s.getD i default).immune = true) :
    ((simulate_fake_news_round expFn G p s rng).states.getD i default).immune = true ∧
    ((simulate_fake_news_round expFn G p s rng).states.getD i default).belief = 0 ∧
    ((simulate_fake_news_round expFn G p s rng).states.getD i default).shared = false := by
  unfold simulate_fake_news_round
  dsimp only
  rw [getD_map_range _ _ _ hi]
  dsimp only
  rw [h]
  refine ⟨rfl, rfl, ?_⟩
  have hnn := hpy (rng.pyIdx + i)
  simp [sigFn]
  exact hnn

/-- C3 (amended): once an agent's immune flag is true it remains true for
every subsequent round, and at the end of every subsequent round that agent
has belief = 0 and shared = false — the belief-update and sharing outcomes
are frozen.  (The attribution step, however, is NOT skipped for immune
agents: as the counterexample shows, an immune agent whose pre-smoothing
candidate exceeds theta_b is still recorded as a transmission target.)  The
stream hypothesis says every Python draw is non-negative, as random.random
guarantees. -/
theorem immune_monotone_amended (expFn : ℚ → ℚ) (G : ℕ → List ℕ) (p : SimParams)
    (k : ℕ) (s : List Agent) (rng : RNG) (hpy : ∀ m, 0 ≤ rng.py m)
    (i : ℕ) (hi : i < s.length) (h : (s.getD i default).immune = true) :
    ((iterRounds expFn G p k s rng).1.getD i default).immune = true ∧
    (1 ≤ k →
      ((iterRounds expFn G p k s rng).1.getD i default).belief = 0 ∧
      ((iterRounds expFn G p k s rng).1.getD i default).shared = false) := by
  induction k generalizing s rng with
  | zero => exact ⟨h, fun hk => absurd hk (by norm_num)⟩
  | succ k ih =>
    have hr := round_preserves_immune expFn G p s rng hpy i hi h
    have hlen : i < (simulate_fake_news_round expFn G p s rng).states.length := by
      rw [round_states_length]; exact hi
    have hpy' : ∀ m, 0 ≤ (simulate_fake_news_round expFn G p s rng).rng.py m := by
      rw [round_rng_py]; exact hpy
    have ih' := ih (simulate_fake_news_round expFn G p s rng).states
      (simulate_fake_news_round expFn G p s rng).rng hpy' hlen hr.1
    rcases Nat.eq_zero_or_pos k with rfl | hk
    · exact ⟨hr.1, fun _ => ⟨hr.2.1, hr.2.2⟩⟩
    · exact ⟨ih'.1, fun _ => ih'.2 hk⟩

/-- C3 amended, instantiated: the immune agent 0 of the pair stays immune
with belief 0 and shared false after two rounds. -/
theorem immune_monotone_amended_witness :
    ((∀ m, 0 ≤ rngNines.py m) ∧ 0 < pairImmune.length ∧
      (pairImmune.getD 0 default).immune = true) ∧
    (((iterRounds myExp lineGraph2 baseParams 2 pairImmune rngNines).1.getD 0
        default).immune = true ∧
      ((iterRounds myExp lineGraph2 baseParams 2 pairImmune rngNines).1.getD 0
        default).belief = 0 ∧
      ((iterRounds myExp lineGraph2 baseParams 2 pairImmune rngNines).1.getD 0
        default).shared = false) :=
  ⟨⟨fun m => by norm_num [rngNines], by norm_num [pairImmune], by with_unfolding_all decide⟩,
   (immune_monotone_amended myExp lineGraph2 baseParams 2 pairImmune rngNines
     (fun m => by norm_num [rngNines]) 0 (by norm_num [pairImmune])
     (by with_unfolding_all decide)).1,
   (immune_monotone_amended myExp lineGraph2 baseParams 2 pairImmune rngNines
     (fun m => by norm_num [rngNines]) 0 (by norm_num [pairImmune])
     (by with_unfolding_all decide)).2 (by norm_num)⟩
